import Mathlib

/-!
Shallow embedding of the container-telemetry-leakage repository.

Embedded components:
* `App` — the synthetic workload engine, src/app/main.py;
* `Data` — the trial-result row and the append-only CSV sink shared by
  both orchestrators;
* `Exp` — the experiment runner, src/runner/run_experiment.py
  (`run_one` and the sink loop of `main`);
* `Mit` — the mitigation runner, src/runner/run_mitigation.py;
* `Sched` — schedule construction (nested loops + random.shuffle).

Effectful operations are modelled by explicit environments: a trial's
environment records what docker inspect reported (pid, exit code), which
accounting files existed, and the outcome of every accounting read the
code attempts (`Option` — `none` is a FileNotFoundError).  Python floats
are modelled as ℚ, Python ints as ℤ or ℕ.
-/

namespace App

/-- Workload kinds accepted by the argparse choices of src/app/main.py. -/
inductive Workload
  | cpu | mem | disk | mix | secret
deriving DecidableEq

/-- Mitigation levels accepted by the argparse choices of src/app/main.py. -/
inductive Mitigation
  | none | low | high
deriving DecidableEq

/-- The 16-byte alphabet b"abcdefghijklmnop" of the level-2 stream. -/
def alphabet : List Nat :=
  [97, 98, 99, 100, 101, 102, 103, 104, 105, 106, 107, 108, 109, 110, 111, 112]

/-- One step of the level-2 generator: x = (1103515245 * x + 12345) & 0x7fffffff. -/
def lcgNext (x : Nat) : Nat := (1103515245 * x + 12345) % 2147483648

/-- The level-2 byte stream of make_entropy_buffer: advance the generator,
emit alphabet[x & 0x0F], `k` times. -/
def lcgBytes : Nat → Nat → List Nat
  | _, 0 => []
  | x, Nat.succ k =>
      let x2 := lcgNext x
      alphabet.getD (x2 % 16) 0 :: lcgBytes x2 k

/-- make_entropy_buffer of src/app/main.py.  The level-3 branch calls
os.urandom, an external entropy source, which the embedding takes as the
argument `urandom`; `secret_N` is a Python int, hence ℤ.  The branch
structure is exactly the source's: equality tests against 0, 1, 2 and an
unconditional urandom return for every other value. -/
def make_entropy_buffer (urandom : Nat → List Nat) (secret_N : Int) (size_mib : Nat) :
    List Nat :=
  let size := size_mib * 1024 * 1024
  if secret_N = 0 then List.replicate size 0
  else if secret_N = 1 then
    (List.join (List.replicate (size / 4 + 1) [65, 66, 67, 68])).take size
  else if secret_N = 2 then lcgBytes 0x12345678 size
  else urandom size

/-- pad_file_to_target of src/app/main.py, modelled at the level of the
resulting file size: if current_size ≥ target_size nothing is written,
otherwise zeros are appended until the file reaches target_size. -/
def pad_file_to_target (current_size target_size : Nat) : Nat :=
  if current_size ≥ target_size then current_size else target_size

/-- The constant padding target secret_work chooses per mitigation level:
none → no padding, low → 64 MiB, high → 140 MiB. -/
def mitTarget : Mitigation → Option Nat
  | Mitigation.none => Option.none
  | Mitigation.low => some (64 * 1024 * 1024)
  | Mitigation.high => some (140 * 1024 * 1024)

/-- Size of /tmp/secret.out that secret_work persists before the final
flush+fsync, as a function of len(comp), the gzip-compressed length of
the entropy buffer.  gzip itself is not embedded; `compLen` abstracts
the compressed length. -/
def secretOutSize (compLen : Nat) (mit : Mitigation) : Nat :=
  match mitTarget mit with
  | Option.none => compLen
  | some t => pad_file_to_target compLen t

/-- Observable outcome of one workload-engine process invocation:
the process exit code and whether secret_work was performed. -/
structure AppResult where
  exitCode : Nat
  ranSecretWork : Bool
deriving DecidableEq

/-- The dispatch in main() of src/app/main.py restricted to what the
claims observe.  For workload=secret, an N outside {0,1,2,3} raises
SystemExit with a message — process exit code 1 — before secret_work is
reached; otherwise secret_work runs and main exits 0 after the hold. -/
def appMain (w : Workload) (N : Int) : AppResult :=
  match w with
  | Workload.secret =>
      if N = 0 ∨ N = 1 ∨ N = 2 ∨ N = 3 then ⟨0, true⟩ else ⟨1, false⟩
  | _ => ⟨0, false⟩

end App

namespace Data

/-- One trial-result row (the telemetry and exit fields of the dict
returned by run_one; the identification fields run_id / workload /
N / rep are pass-through strings irrelevant to the claims). -/
structure Row where
  runtime_ms : ℚ
  avg_cpu_percent : ℚ
  max_mem_mib : ℚ
  blk_read_mib : ℚ
  blk_write_mib : ℚ
  exit_code : ℤ
deriving DecidableEq

/-- The degraded all-zero row both runners return when the sandbox never
exposes a usable pid or no baseline sample could be taken: all four
accounting fields are 0, exit_code is whatever docker inspect reported. -/
def degradedRow (runtime_s : ℚ) (exit : ℤ) : Row :=
  ⟨runtime_s * 1000, 0, 0, 0, 0, exit⟩

/-- The CSV dataset file: header flag plus rows.  `Option.none` models an
absent file. -/
structure SinkFile where
  header : Bool
  rows : List Row
deriving DecidableEq

/-- One sink append as performed per trial by both orchestrators:
write_header = not os.path.exists(OUT_CSV); open in append mode; write
the header only if the file is being created; append one row. -/
def appendRow (f : Option SinkFile) (r : Row) : SinkFile :=
  match f with
  | Option.none => ⟨true, [r]⟩
  | some g => ⟨g.header, g.rows ++ [r]⟩

/-- The rows currently stored in the dataset file (empty if absent). -/
def rowsOf (f : Option SinkFile) : List Row :=
  match f with
  | Option.none => []
  | some g => g.rows

end Data

namespace Exp

/-- One accounting sample of run_experiment.py (TelemetrySample):
cpu seconds (float), rss / io counters (ints). -/
structure TelemetrySample where
  cpu_seconds : ℚ
  rss_bytes : ℤ
  read_bytes : ℤ
  write_bytes : ℤ
deriving DecidableEq

/-- What the world looks like at one read attempt of run_one: whether
/proc/pid still exists, the outcome of a cgroup read and of a /proc read
at this instant (`none` — the source raised FileNotFoundError), and what
docker inspect -f State.Running would answer. -/
structure Tick where
  procExists : Bool
  cgRead : Option TelemetrySample
  procRead : Option TelemetrySample
  running : Bool
deriving DecidableEq

/-- Environment of one run_one call of run_experiment.py: the pid and
exit code docker inspect reports, whether /proc/pid/cgroup yielded a
cgroup directory, which of its two probed files exist, the observation
trace for the baseline retry loop, the poll loop and the final draining
read, and the wall-clock duration. -/
structure Env where
  pid : ℤ
  exitCode : ℤ
  cgFound : Bool
  memCurrentExists : Bool
  cpuStatExists : Bool
  baseline : List Tick
  ticks : List Tick
  drain : Tick
  runtime_s : ℚ
deriving DecidableEq

/-- cgroup_available: memory.current and cpu.stat must both exist. -/
def cgroup_available (e : Env) : Bool := e.memCurrentExists && e.cpuStatExists

/-- use_cg = (cg is not None and cgroup_available(cg)), computed once per
trial before sampling starts. -/
def useCg (e : Env) : Bool := e.cgFound && cgroup_available e

/-- sample_cgroup(cg) if use_cg else sample_proc(pid): which of the two
read outcomes of a tick the selected source yields. -/
def readOf (b : Bool) (t : Tick) : Option TelemetrySample :=
  if b then t.cgRead else t.procRead

/-- The baseline retry loop (up to 10 attempts): stop with no sample when
the process is gone, keep the first successful read, retry on
FileNotFoundError. -/
def baselineSample (b : Bool) : List Tick → Option TelemetrySample
  | [] => Option.none
  | t :: rest =>
      if t.procExists then
        match readOf b t with
        | some s => some s
        | Option.none => baselineSample b rest
      else Option.none

/-- The poll loop of run_one: while the process exists, read a sample;
on success fold its rss into the running peak, then stop if the
container is no longer running; on FileNotFoundError stop.  Only the
memory peak is retained from poll samples — cpu/io values of successful
polls are discarded. -/
def pollPeak (b : Bool) (mem : ℤ) : List Tick → ℤ
  | [] => mem
  | t :: rest =>
      if t.procExists then
        match readOf b t with
        | some s =>
            let m := max mem s.rss_bytes
            if t.running then pollPeak b m rest else m
        | Option.none => mem
      else mem

/-- The final best-effort draining read: on success it becomes the final
sample and updates the memory peak; on failure (or if the process is
gone) the baseline sample s0 stands, so all cpu/io deltas are zero. -/
def drainRead (b : Bool) (t : Tick) (s0 : TelemetrySample) (mem : ℤ) :
    TelemetrySample × ℤ :=
  if t.procExists then
    match readOf b t with
    | some sf => (sf, max mem sf.rss_bytes)
    | Option.none => (s0, mem)
  else (s0, mem)

/-- Row assembly at the end of run_one: cpu delta clamped at 0, average
cpu percent guarded by runtime_s > 0, io deltas clamped at 0, all
converted to MiB (divided by 1024²). -/
def mkRow (runtime_s : ℚ) (s0 sf : TelemetrySample) (mem : ℤ) (exit : ℤ) :
    Data.Row :=
  let cpu_delta := max 0 (sf.cpu_seconds - s0.cpu_seconds)
  let avg := if runtime_s > 0 then cpu_delta / runtime_s * 100 else 0
  ⟨runtime_s * 1000, avg,
   (mem : ℚ) / 1048576,
   ((max 0 (sf.read_bytes - s0.read_bytes) : ℤ) : ℚ) / 1048576,
   ((max 0 (sf.write_bytes - s0.write_bytes) : ℤ) : ℚ) / 1048576,
   exit⟩

/-- run_one of src/runner/run_experiment.py.  pid ≤ 0 → degraded row;
no baseline sample in 10 attempts → degraded row; otherwise poll, drain,
assemble.  The accounting source is chosen once (useCg) before the
baseline. -/
def run_one (e : Env) : Data.Row :=
  if e.pid ≤ 0 then Data.degradedRow e.runtime_s e.exitCode
  else
    match baselineSample (useCg e) (e.baseline.take 10) with
    | Option.none => Data.degradedRow e.runtime_s e.exitCode
    | some s0 =>
        mkRow e.runtime_s s0
          (drainRead (useCg e) e.drain s0 (pollPeak (useCg e) s0.rss_bytes e.ticks)).1
          (drainRead (useCg e) e.drain s0 (pollPeak (useCg e) s0.rss_bytes e.ticks)).2
          e.exitCode

/-- The per-trial sink loop of main() in run_experiment.py: for each
scheduled trial, run it and append exactly one row (header only when the
file does not yet exist).  `init` is the dataset file found on disk when
the orchestrator starts. -/
def runMain (init : Option Data.SinkFile) (trials : List Env) :
    Option Data.SinkFile :=
  trials.foldl (fun f e => some (Data.appendRow f (run_one e))) init

/-- Replace the /proc-read outcome of a tick (the cgroup outcome and the
liveness bits are untouched). -/
def setProc (v : Option TelemetrySample) (t : Tick) : Tick :=
  ⟨t.procExists, t.cgRead, v, t.running⟩

/-- Replace the cgroup-read outcome of a tick. -/
def setCg (v : Option TelemetrySample) (t : Tick) : Tick :=
  ⟨t.procExists, v, t.procRead, t.running⟩

/-- The same trial world with every /proc read replaced by `v`. -/
def mapProc (e : Env) (v : Option TelemetrySample) : Env :=
  ⟨e.pid, e.exitCode, e.cgFound, e.memCurrentExists, e.cpuStatExists,
   e.baseline.map (setProc v), e.ticks.map (setProc v), setProc v e.drain,
   e.runtime_s⟩

/-- The same trial world with every cgroup read replaced by `v`. -/
def mapCg (e : Env) (v : Option TelemetrySample) : Env :=
  ⟨e.pid, e.exitCode, e.cgFound, e.memCurrentExists, e.cpuStatExists,
   e.baseline.map (setCg v), e.ticks.map (setCg v), setCg v e.drain,
   e.runtime_s⟩

end Exp

namespace Mit

/-- CgSample of run_mitigation.py: usage_usec, memory.current, io bytes. -/
structure CgSample where
  usage_usec : ℤ
  mem_current : ℤ
  rbytes : ℤ
  wbytes : ℤ
deriving DecidableEq

/-- One poll-loop observation of run_mitigation.py: the outcome of
sample_cgroup (`none` — FileNotFoundError) and container liveness. -/
structure Tick where
  read : Option CgSample
  running : Bool
deriving DecidableEq

/-- Environment of one run_one call of run_mitigation.py: pid and exit
code from docker inspect, whether wait_for_cgroup found a usable cgroup
(cpu.stat and memory.current present) within its timeout, the outcome of
the unguarded baseline sample_cgroup call, the poll observations, and
the wall-clock duration. -/
structure Env where
  pid : ℤ
  exitCode : ℤ
  cgWaitOk : Bool
  s0read : Option CgSample
  ticks : List Tick
  runtime_s : ℚ
deriving DecidableEq

/-- The poll loop of run_mitigation.run_one: each successful sample
becomes `last` and folds its memory into the peak; stop when the read
fails (keeping the previous `last`) or the container stopped running. -/
def loop (last : CgSample) (mem : ℤ) : List Tick → CgSample × ℤ
  | [] => (last, mem)
  | t :: rest =>
      match t.read with
      | some s =>
          let m := max mem s.mem_current
          if t.running then loop s m rest else (s, m)
      | Option.none => (last, mem)

/-- Row assembly of run_mitigation.run_one: cpu delta in seconds clamped
at 0 from usec counters, io deltas clamped at 0, MiB conversions. -/
def mkRow (runtime_s : ℚ) (s0 last : CgSample) (mem : ℤ) (exit : ℤ) :
    Data.Row :=
  let cpu_delta := max 0 (((last.usage_usec - s0.usage_usec : ℤ) : ℚ) / 1000000)
  let avg := if runtime_s > 0 then cpu_delta / runtime_s * 100 else 0
  ⟨runtime_s * 1000, avg,
   (mem : ℚ) / 1048576,
   ((max 0 (last.rbytes - s0.rbytes) : ℤ) : ℚ) / 1048576,
   ((max 0 (last.wbytes - s0.wbytes) : ℤ) : ℚ) / 1048576,
   exit⟩

/-- run_one of src/runner/run_mitigation.py.  pid ≤ 0 → degraded row;
wait_for_cgroup timeout → degraded row; then the baseline
s0 = sample_cgroup(cg) runs OUTSIDE any try block, so a
FileNotFoundError there propagates out of run_one (`Except.error`);
otherwise poll and assemble.  There is no per-process fallback source in
this runner. -/
def run_one (e : Env) : Except Unit Data.Row :=
  if e.pid ≤ 0 then Except.ok (Data.degradedRow e.runtime_s e.exitCode)
  else if !e.cgWaitOk then Except.ok (Data.degradedRow e.runtime_s e.exitCode)
  else
    match e.s0read with
    | Option.none => Except.error ()
    | some s0 =>
        let p := loop s0 s0.mem_current e.ticks
        Except.ok (mkRow e.runtime_s s0 p.1 p.2 e.exitCode)

/-- os.remove(OUT_CSV) if it exists: the dataset file is gone afterwards
whatever it held. -/
def removeDataset : Option Data.SinkFile → Option Data.SinkFile :=
  fun _ => Option.none

/-- The per-trial sink loop of main() in run_mitigation.py.  A trial
whose run_one raises stops the whole orchestrator (second component
true); otherwise one row is appended per trial. -/
def runMainGo (f : Option Data.SinkFile) :
    List Env → Option Data.SinkFile × Bool
  | [] => (f, false)
  | e :: rest =>
      match run_one e with
      | Except.error _ => (f, true)
      | Except.ok r => runMainGo (some (Data.appendRow f r)) rest

/-- main() of run_mitigation.py: first delete any existing dataset file,
then run the schedule. -/
def runMain (init : Option Data.SinkFile) (trials : List Env) :
    Option Data.SinkFile × Bool :=
  runMainGo (removeDataset init) trials

/-- An environment on which run_one returns normally (its pid/cgroup/
baseline configuration does not hit the unguarded-baseline raise). -/
def okEnv (e : Env) : Bool :=
  !(decide (0 < e.pid) && e.cgWaitOk && e.s0read.isNone)

/-- The row run_one produces on a normally-returning environment. -/
def okRow (e : Env) : Data.Row :=
  match run_one e with
  | Except.ok r => r
  | Except.error _ => Data.degradedRow 0 0

end Mit

namespace Sched

/-- x[i], x[j] = x[j], x[i] — the swap inside random.shuffle. -/
def swapElems {α : Type} (l : List α) (i j : Nat) : List α :=
  if h : i < l.length ∧ j < l.length then
    (l.set i (l.get ⟨j, h.2⟩)).set j (l.get ⟨i, h.1⟩)
  else l

/-- The Fisher–Yates loop of random.shuffle, from the top index down:
for i in reversed(range(1, len(x))): j = _randbelow(i+1); swap x[i], x[j].
`js i` stands for the Mersenne-Twister draw _randbelow(i+1) at index i;
it is reduced mod (i+1), a bound the real draw already satisfies. -/
def shuffleAux {α : Type} (js : Nat → Nat) : Nat → List α → List α
  | 0, l => l
  | Nat.succ i, l => shuffleAux js i (swapElems l (i + 1) (js (i + 1) % (i + 2)))

/-- random.shuffle(l) under the deterministic draw stream `js` (the
stream is fully determined by the preceding random.seed call). -/
def pyShuffle {α : Type} (js : Nat → Nat) (l : List α) : List α :=
  shuffleAux js (l.length - 1) l

/-- The schedule list built by main() of run_experiment.py before the
shuffle: for w in workloads, for intensity in low/med/high, for rep in
range(30), append (w, intensity, rep). -/
def expSchedule : List (String × String × Nat) :=
  ["cpu", "mem", "disk", "mix"].bind fun w =>
    ["low", "med", "high"].bind fun intensity =>
      (List.range 30).map fun rep => (w, intensity, rep)

/-- The schedule list built by main() of run_mitigation.py before the
shuffle: for m in mitigations, for n in secret_levels, for rep in
range(30), append (n, m, rep). -/
def mitSchedule : List (Int × String × Nat) :=
  ["none", "low", "high"].bind fun m =>
    ([0, 1, 2, 3] : List Int).bind fun n =>
      (List.range 30).map fun rep => (n, m, rep)

end Sched

deriving instance DecidableEq for Except

namespace Wit

/-- A tick at which the process is already gone. -/
def tickOff : Exp.Tick := ⟨false, Option.none, Option.none, false⟩

/-- A trial whose container exposes pid 0 and whose reported exit code is
0 (it exited successfully before the pid inspection). -/
def c1e : Exp.Env := ⟨0, 0, false, false, false, [], [], tickOff, 1⟩

/-- A mitigation trial with pid 0. -/
def c1m : Mit.Env := ⟨0, 0, false, Option.none, [], 1⟩

/-- A fallback sample with 2 MiB resident memory. -/
def s2m : Exp.TelemetrySample := ⟨0, 2097152, 0, 0⟩

/-- A trial world for run_experiment where the cgroup probe fails but the
per-process files answer: the fallback source reports 2 MiB resident. -/
def c3exp : Exp.Env :=
  ⟨5, 0, false, false, false, [⟨true, Option.none, some s2m, true⟩], [], tickOff, 1⟩

/-- The same sort of world for run_mitigation: no usable cgroup appears in
time, while the process itself (2 MiB resident) would be readable. -/
def c3mit : Mit.Env := ⟨5, 7, false, Option.none, [⟨some ⟨1, 2097152, 0, 0⟩, true⟩], 1⟩

/-- A run_experiment environment sampling via the cgroup source. -/
def c3e : Exp.Env := ⟨5, 0, true, true, true, [], [], tickOff, 1⟩

/-- Zero baseline sample. -/
def s0z : Exp.TelemetrySample := ⟨0, 0, 0, 0⟩

/-- A sample with 5 cpu-seconds. -/
def s5 : Exp.TelemetrySample := ⟨5, 0, 0, 0⟩

/-- run_experiment world: baseline cpu 0; one successful poll read with
cpu 5; then the source vanishes mid-poll and the draining read fails. -/
def c4loss : Exp.Env :=
  ⟨5, 0, true, true, true, [⟨true, some s0z, Option.none, true⟩],
   [⟨true, some s5, Option.none, true⟩, ⟨true, Option.none, Option.none, true⟩],
   tickOff, 1⟩

/-- Same world except the draining read succeeds with the cpu-5 sample. -/
def c4drain : Exp.Env :=
  ⟨5, 0, true, true, true, [⟨true, some s0z, Option.none, true⟩],
   [⟨true, some s5, Option.none, true⟩, ⟨true, Option.none, Option.none, true⟩],
   ⟨true, some s5, Option.none, false⟩, 1⟩

/-- run_mitigation world: wait_for_cgroup succeeds but the cgroup vanishes
before the unguarded baseline sample_cgroup call. -/
def c4crash : Mit.Env := ⟨5, 0, true, Option.none, [], 1⟩

/-- A dataset file left by an earlier orchestrator run, holding one row. -/
def c5old : Option Data.SinkFile := some ⟨true, [Data.degradedRow 1 5]⟩

/-- A mitigation trial (degraded, pid 0, exit 1, 2 s wall time). -/
def c5trial : Mit.Env := ⟨0, 1, false, Option.none, [], 2⟩

/-- run_experiment environment whose draining read reports lower cpu/io
counters than the baseline, exercising the delta clamps. -/
def c6e : Exp.Env :=
  ⟨5, 0, true, true, true, [⟨true, some ⟨3, 7, 9, 11⟩, Option.none, true⟩], [],
   ⟨true, some ⟨1, 5, 1, 1⟩, Option.none, false⟩, 1⟩

/-- A normally-returning mitigation environment (degraded path). -/
def c6m : Mit.Env := ⟨0, 3, false, Option.none, [], 1⟩

/-- A normally-returning mitigation trial for the schedule-progress part. -/
def c8m : Mit.Env := ⟨0, 1, false, Option.none, [], 1⟩

/-- A concrete stand-in for os.urandom: k bytes of value 7. -/
def u7 : Nat → List Nat := fun k => List.replicate k 7

end Wit

namespace Sched

/-- Taking out the element at k and writing x there is, up to order, the
same as putting x in front. -/
theorem get_cons_set_perm {α : Type} :
    ∀ (t : List α) (k : Nat) (hk : k < t.length) (x : α),
      List.Perm (t.get ⟨k, hk⟩ :: t.set k x) (x :: t)
  | [], _, hk, _ => (Nat.not_lt_zero _ hk).elim
  | a :: s, 0, _, x => List.Perm.swap x a s
  | a :: s, k + 1, hk, x => by
      have hk2 : k < s.length := Nat.lt_of_succ_lt_succ hk
      have h1 : List.Perm (s.get ⟨k, hk2⟩ :: a :: s.set k x)
          (a :: s.get ⟨k, hk2⟩ :: s.set k x) :=
        List.Perm.swap a (s.get ⟨k, hk2⟩) (s.set k x)
      have h2 := (get_cons_set_perm s k hk2 x).cons a
      have h3 : List.Perm (a :: x :: s) (x :: a :: s) := List.Perm.swap x a s
      exact h1.trans (h2.trans h3)

/-- Exchanging the entries at two positions permutes the list. -/
theorem set_set_perm {α : Type} :
    ∀ (l : List α) (i j : Nat) (hi : i < l.length) (hj : j < l.length),
      List.Perm ((l.set i (l.get ⟨j, hj⟩)).set j (l.get ⟨i, hi⟩)) l
  | [], _, _, hi, _ => (Nat.not_lt_zero _ hi).elim
  | _ :: _, 0, 0, _, _ => List.Perm.refl _
  | _ :: s, 0, k + 1, _, hj => get_cons_set_perm s k (Nat.lt_of_succ_lt_succ hj) _
  | _ :: s, m + 1, 0, hi, _ => get_cons_set_perm s m (Nat.lt_of_succ_lt_succ hi) _
  | a :: s, m + 1, k + 1, hi, hj =>
      (set_set_perm s m k (Nat.lt_of_succ_lt_succ hi) (Nat.lt_of_succ_lt_succ hj)).cons a

theorem swapElems_perm {α : Type} (l : List α) (i j : Nat) :
    List.Perm (swapElems l i j) l := by
  unfold swapElems
  split
  next h => exact set_set_perm l i j h.1 h.2
  next => exact List.Perm.refl l

theorem shuffleAux_perm {α : Type} (js : Nat → Nat) :
    ∀ (n : Nat) (l : List α), List.Perm (shuffleAux js n l) l
  | 0, l => List.Perm.refl l
  | n + 1, l =>
      (shuffleAux_perm js n _).trans (swapElems_perm l (n + 1) (js (n + 1) % (n + 2)))

/-- random.shuffle reorders, never adds, drops or duplicates entries. -/
theorem pyShuffle_perm {α : Type} (js : Nat → Nat) (l : List α) :
    List.Perm (pyShuffle js l) l :=
  shuffleAux_perm js (l.length - 1) l

/-- The nested three-loop append pattern is the list cross-product. -/
theorem tripleEq {α β : Type} (as : List α) (bs : List β) (r : Nat) :
    (as.bind fun a => bs.bind fun b => (List.range r).map fun k => (a, b, k)) =
      as.product (bs.product (List.range r)) := by
  simp [List.product, List.map_flatMap, List.map_map, List.bind, Function.comp_def]

/-- Same, with the inner loop variable leading in the tuple. -/
theorem tripleSwapEq {α β : Type} (as : List α) (bs : List β) (r : Nat) :
    (as.bind fun a => bs.bind fun b => (List.range r).map fun k => (b, a, k)) =
      (as.product (bs.product (List.range r))).map fun p => (p.2.1, p.1, p.2.2) := by
  simp [List.product, List.map_flatMap, List.map_map, List.bind, Function.comp_def]

/-- Each (workload, intensity, rep) cell appears exactly once before the
shuffle. -/
theorem expSchedule_nodup : expSchedule.Nodup := by
  rw [expSchedule, tripleEq]
  exact List.Nodup.product (by decide)
    (List.Nodup.product (by decide) (List.nodup_range 30))

/-- Each (secret level, mitigation, rep) cell appears exactly once before
the shuffle. -/
theorem mitSchedule_nodup : mitSchedule.Nodup := by
  rw [mitSchedule, tripleSwapEq]
  refine List.Nodup.map ?_ (List.Nodup.product (by decide)
    (List.Nodup.product (by decide) (List.nodup_range 30)))
  rintro ⟨a, b, k⟩ ⟨a2, b2, k2⟩ h
  simp only [Prod.mk.injEq] at h
  simp [h.1, h.2.1, h.2.2]

end Sched

namespace Exp

theorem baselineSample_congrMap (b : Bool) (f : Tick → Tick)
    (hr : ∀ t, readOf b (f t) = readOf b t)
    (hp : ∀ t, (f t).procExists = t.procExists) :
    ∀ l, baselineSample b (l.map f) = baselineSample b l := by
  intro l
  induction l with
  | nil => rfl
  | cons t rest ih =>
      simp only [List.map_cons, baselineSample, hr t, hp t]
      cases t.procExists with
      | false => simp
      | true =>
          cases h : readOf b t with
          | none => simp [ih]
          | some s => simp

theorem pollPeak_congrMap (b : Bool) (f : Tick → Tick)
    (hr : ∀ t, readOf b (f t) = readOf b t)
    (hp : ∀ t, (f t).procExists = t.procExists)
    (hrun : ∀ t, (f t).running = t.running) :
    ∀ (l : List Tick) (mem : ℤ), pollPeak b mem (l.map f) = pollPeak b mem l := by
  intro l
  induction l with
  | nil => intro mem; rfl
  | cons t rest ih =>
      intro mem
      simp only [List.map_cons, pollPeak, hr t, hp t, hrun t]
      cases t.procExists with
      | false => simp
      | true =>
          cases h : readOf b t with
          | none => simp
          | some s =>
              cases hru : t.running with
              | false => simp
              | true => simp [ih]

theorem drainRead_congrMap (b : Bool) (f : Tick → Tick)
    (hr : ∀ t, readOf b (f t) = readOf b t)
    (hp : ∀ t, (f t).procExists = t.procExists)
    (t : Tick) (s0 : TelemetrySample) (mem : ℤ) :
    drainRead b (f t) s0 mem = drainRead b t s0 mem := by
  simp only [drainRead, hr t, hp t]

/-- When the cgroup source was selected, run_one never touches the
per-process pseudo-files: replacing every /proc read outcome leaves the
trial result unchanged. -/
theorem run_one_mapProc (e : Env) (v : Option TelemetrySample) (h : useCg e = true) :
    run_one (mapProc e v) = run_one e := by
  have hr : ∀ t, readOf true (setProc v t) = readOf true t := fun _ => rfl
  have hp : ∀ t, (setProc v t).procExists = t.procExists := fun _ => rfl
  have hrun : ∀ t, (setProc v t).running = t.running := fun _ => rfl
  have hcg : useCg (mapProc e v) = useCg e := rfl
  have hpid : (mapProc e v).pid = e.pid := rfl
  have hex : (mapProc e v).exitCode = e.exitCode := rfl
  have hrt : (mapProc e v).runtime_s = e.runtime_s := rfl
  have hbase : (mapProc e v).baseline = e.baseline.map (setProc v) := rfl
  have hticks : (mapProc e v).ticks = e.ticks.map (setProc v) := rfl
  have hdrain : (mapProc e v).drain = setProc v e.drain := rfl
  unfold run_one
  rw [hcg, h, hpid, hex, hrt, hbase, hticks, hdrain]
  rw [← List.map_take, baselineSample_congrMap true (setProc v) hr hp]
  cases hb : baselineSample true (e.baseline.take 10) with
  | none => rfl
  | some s0 =>
      dsimp only
      rw [pollPeak_congrMap true (setProc v) hr hp hrun,
        drainRead_congrMap true (setProc v) hr hp]

/-- When the fallback source was selected, run_one never touches the
cgroup files: replacing every cgroup read outcome leaves the trial
result unchanged. -/
theorem run_one_mapCg (e : Env) (v : Option TelemetrySample) (h : useCg e = false) :
    run_one (mapCg e v) = run_one e := by
  have hr : ∀ t, readOf false (setCg v t) = readOf false t := fun _ => rfl
  have hp : ∀ t, (setCg v t).procExists = t.procExists := fun _ => rfl
  have hrun : ∀ t, (setCg v t).running = t.running := fun _ => rfl
  have hcg : useCg (mapCg e v) = useCg e := rfl
  have hpid : (mapCg e v).pid = e.pid := rfl
  have hex : (mapCg e v).exitCode = e.exitCode := rfl
  have hrt : (mapCg e v).runtime_s = e.runtime_s := rfl
  have hbase : (mapCg e v).baseline = e.baseline.map (setCg v) := rfl
  have hticks : (mapCg e v).ticks = e.ticks.map (setCg v) := rfl
  have hdrain : (mapCg e v).drain = setCg v e.drain := rfl
  unfold run_one
  rw [hcg, h, hpid, hex, hrt, hbase, hticks, hdrain]
  rw [← List.map_take, baselineSample_congrMap false (setCg v) hr hp]
  cases hb : baselineSample false (e.baseline.take 10) with
  | none => rfl
  | some s0 =>
      dsimp only
      rw [pollPeak_congrMap false (setCg v) hr hp hrun,
        drainRead_congrMap false (setCg v) hr hp]

end Exp

namespace Data

theorem rowsOf_appendRow (f : Option SinkFile) (r : Row) :
    rowsOf (some (appendRow f r)) = rowsOf f ++ [r] := by
  cases f <;> rfl

theorem header_appendRow_absent (r : Row) : (appendRow Option.none r).header = true := rfl

theorem header_appendRow_present (g : SinkFile) (r : Row) :
    (appendRow (some g) r).header = g.header := rfl

end Data

namespace Exp

/-- The sink after a run of the experiment orchestrator holds exactly the
initial rows followed by one row per scheduled trial, in order. -/
theorem rowsOf_runMain (trials : List Env) :
    ∀ init, Data.rowsOf (runMain init trials) =
      Data.rowsOf init ++ trials.map run_one := by
  induction trials with
  | nil => intro init; simp [runMain]
  | cons e rest ih =>
      intro init
      have step : runMain init (e :: rest) =
          runMain (some (Data.appendRow init (run_one e))) rest := rfl
      rw [step, ih, Data.rowsOf_appendRow, List.map_cons, List.append_assoc,
        List.singleton_append]

/-- The experiment orchestrator never produces an absent sink file from a
present one, and never rewrites the header flag of an existing file. -/
theorem runMain_header (trials : List Env) :
    ∀ g : Data.SinkFile, ∃ g2 : Data.SinkFile,
      runMain (some g) trials = some g2 ∧ g2.header = g.header := by
  induction trials with
  | nil => intro g; exact ⟨g, rfl, rfl⟩
  | cons e rest ih =>
      intro g
      have step : runMain (some g) (e :: rest) =
          runMain (some (Data.appendRow (some g) (run_one e))) rest := rfl
      obtain ⟨g2, h1, h2⟩ := ih (Data.appendRow (some g) (run_one e))
      exact ⟨g2, by rw [step, h1], h2⟩

/-- Creating the sink writes the header exactly once. -/
theorem runMain_header_new (e : Env) (rest : List Env) :
    ∃ g2 : Data.SinkFile,
      runMain Option.none (e :: rest) = some g2 ∧ g2.header = true := by
  have step : runMain Option.none (e :: rest) =
      runMain (some (Data.appendRow Option.none (run_one e))) rest := rfl
  obtain ⟨g2, h1, h2⟩ := runMain_header rest (Data.appendRow Option.none (run_one e))
  exact ⟨g2, by rw [step, h1], h2⟩

theorem mkRow_avg_nonneg (rt : ℚ) (s0 sf : TelemetrySample) (mem : ℤ) (ex : ℤ) :
    0 ≤ (mkRow rt s0 sf mem ex).avg_cpu_percent := by
  show 0 ≤ if rt > 0 then max 0 (sf.cpu_seconds - s0.cpu_seconds) / rt * 100 else 0
  split
  next h =>
    exact mul_nonneg (div_nonneg (le_max_left 0 _) (le_of_lt h)) (by norm_num)
  next => exact le_refl 0

theorem mkRow_read_nonneg (rt : ℚ) (s0 sf : TelemetrySample) (mem : ℤ) (ex : ℤ) :
    0 ≤ (mkRow rt s0 sf mem ex).blk_read_mib := by
  show 0 ≤ ((max 0 (sf.read_bytes - s0.read_bytes) : ℤ) : ℚ) / 1048576
  have h : (0 : ℤ) ≤ max 0 (sf.read_bytes - s0.read_bytes) := le_max_left 0 _
  exact div_nonneg (by exact_mod_cast h) (by norm_num)

theorem mkRow_write_nonneg (rt : ℚ) (s0 sf : TelemetrySample) (mem : ℤ) (ex : ℤ) :
    0 ≤ (mkRow rt s0 sf mem ex).blk_write_mib := by
  show 0 ≤ ((max 0 (sf.write_bytes - s0.write_bytes) : ℤ) : ℚ) / 1048576
  have h : (0 : ℤ) ≤ max 0 (sf.write_bytes - s0.write_bytes) := le_max_left 0 _
  exact div_nonneg (by exact_mod_cast h) (by norm_num)

/-- The three claim fields of any experiment trial row are nonnegative. -/
theorem run_one_nonneg (e : Env) :
    0 ≤ (run_one e).avg_cpu_percent ∧ 0 ≤ (run_one e).blk_read_mib ∧
      0 ≤ (run_one e).blk_write_mib := by
  unfold run_one
  split
  next => exact ⟨le_refl 0, le_refl 0, le_refl 0⟩
  next =>
    cases hb : baselineSample (useCg e) (e.baseline.take 10) with
    | none => exact ⟨le_refl 0, le_refl 0, le_refl 0⟩
    | some s0 =>
        exact ⟨mkRow_avg_nonneg _ _ _ _ _, mkRow_read_nonneg _ _ _ _ _,
          mkRow_write_nonneg _ _ _ _ _⟩

end Exp

namespace Exp

/-- When the draining read cannot be taken (process gone or the selected
source raises), the baseline sample itself is the final sample, so every
cpu/io delta of the row is zero — whatever the poll loop observed. -/
theorem run_one_drainFail (e : Env) (s0 : TelemetrySample)
    (hp : 0 < e.pid)
    (hb : baselineSample (useCg e) (e.baseline.take 10) = some s0)
    (hd : e.drain.procExists = false ∨ readOf (useCg e) e.drain = Option.none) :
    (run_one e).avg_cpu_percent = 0 ∧ (run_one e).blk_read_mib = 0 ∧
      (run_one e).blk_write_mib = 0 := by
  have hne : ¬ e.pid ≤ 0 := by omega
  have hdr : drainRead (useCg e) e.drain s0 (pollPeak (useCg e) s0.rss_bytes e.ticks) =
      (s0, pollPeak (useCg e) s0.rss_bytes e.ticks) := by
    unfold drainRead
    rcases hd with h | h
    · rw [h]
      simp
    · cases hpe : e.drain.procExists with
      | false => simp
      | true => rw [if_pos rfl, h]
  unfold run_one
  rw [if_neg hne, hb]
  dsimp only
  rw [hdr]
  refine ⟨?_, ?_, ?_⟩
  · show (if e.runtime_s > 0
        then max 0 (s0.cpu_seconds - s0.cpu_seconds) / e.runtime_s * 100 else 0) = 0
    simp
  · show ((max 0 (s0.read_bytes - s0.read_bytes) : ℤ) : ℚ) / 1048576 = 0
    simp
  · show ((max 0 (s0.write_bytes - s0.write_bytes) : ℤ) : ℚ) / 1048576 = 0
    simp

end Exp

namespace Mit

/-- run_one raises (propagates a FileNotFoundError) exactly when the pid
was usable and wait_for_cgroup succeeded but the unguarded baseline
sample_cgroup call failed. -/
theorem run_one_error_iff (m : Env) :
    run_one m = Except.error () ↔
      (0 < m.pid ∧ m.cgWaitOk = true ∧ m.s0read = Option.none) := by
  unfold run_one
  split
  next hpid =>
    simp only [reduceCtorEq, false_iff]
    rintro ⟨h1, -, -⟩
    omega
  next hpid =>
    split
    next hcg =>
      simp only [reduceCtorEq, false_iff]
      rintro ⟨-, h2, -⟩
      rw [h2] at hcg
      simp at hcg
    next hcg =>
      have hcg2 : m.cgWaitOk = true := by
        revert hcg
        cases m.cgWaitOk <;> simp
      cases hs : m.s0read with
      | none =>
          constructor
          · intro _
            exact ⟨by omega, hcg2, rfl⟩
          · intro _
            rfl
      | some s0 =>
          simp only [reduceCtorEq, false_iff]
          rintro ⟨-, -, h3⟩
          exact h3

end Mit

namespace Mit

/-- On a normally-returning environment run_one yields exactly one row. -/
theorem run_one_okEnv (m : Env) (h : okEnv m = true) :
    run_one m = Except.ok (okRow m) := by
  cases hr : run_one m with
  | ok r => simp [okRow, hr]
  | error u =>
      exfalso
      cases u
      obtain ⟨h1, h2, h3⟩ := (run_one_error_iff m).mp hr
      rw [okEnv, h2, h3] at h
      simp [h1] at h

theorem mitRow_avg_nonneg (rt : ℚ) (s0 last : CgSample) (mem ex : ℤ) :
    0 ≤ (mkRow rt s0 last mem ex).avg_cpu_percent := by
  show 0 ≤ if rt > 0
      then max 0 (((last.usage_usec - s0.usage_usec : ℤ) : ℚ) / 1000000) / rt * 100
      else 0
  split
  next h =>
    exact mul_nonneg (div_nonneg (le_max_left 0 _) (le_of_lt h)) (by norm_num)
  next => exact le_refl 0

theorem mitRow_read_nonneg (rt : ℚ) (s0 last : CgSample) (mem ex : ℤ) :
    0 ≤ (mkRow rt s0 last mem ex).blk_read_mib := by
  show 0 ≤ ((max 0 (last.rbytes - s0.rbytes) : ℤ) : ℚ) / 1048576
  have h : (0 : ℤ) ≤ max 0 (last.rbytes - s0.rbytes) := le_max_left 0 _
  exact div_nonneg (by exact_mod_cast h) (by norm_num)

theorem mitRow_write_nonneg (rt : ℚ) (s0 last : CgSample) (mem ex : ℤ) :
    0 ≤ (mkRow rt s0 last mem ex).blk_write_mib := by
  show 0 ≤ ((max 0 (last.wbytes - s0.wbytes) : ℤ) : ℚ) / 1048576
  have h : (0 : ℤ) ≤ max 0 (last.wbytes - s0.wbytes) := le_max_left 0 _
  exact div_nonneg (by exact_mod_cast h) (by norm_num)

/-- The three claim fields of any mitigation trial row are nonnegative. -/
theorem run_one_ok_nonneg (m : Env) (r : Data.Row) (h : run_one m = Except.ok r) :
    0 ≤ r.avg_cpu_percent ∧ 0 ≤ r.blk_read_mib ∧ 0 ≤ r.blk_write_mib := by
  unfold run_one at h
  split at h
  next =>
    cases h
    exact ⟨le_refl 0, le_refl 0, le_refl 0⟩
  next =>
    split at h
    next =>
      cases h
      exact ⟨le_refl 0, le_refl 0, le_refl 0⟩
    next =>
      cases hs : m.s0read with
      | none =>
          rw [hs] at h
          cases h
      | some s0 =>
          rw [hs] at h
          cases h
          exact ⟨mitRow_avg_nonneg _ _ _ _ _, mitRow_read_nonneg _ _ _ _ _,
            mitRow_write_nonneg _ _ _ _ _⟩

/-- On a schedule of normally-returning trials the mitigation
orchestrator appends exactly one row per trial, in order, and never
stops early. -/
theorem runMainGo_rows (trials : List Env) :
    ∀ f, (∀ m ∈ trials, okEnv m = true) →
      Data.rowsOf (runMainGo f trials).1 = Data.rowsOf f ++ trials.map okRow ∧
        (runMainGo f trials).2 = false := by
  induction trials with
  | nil =>
      intro f _
      simp [runMainGo]
  | cons e rest ih =>
      intro f hok
      have he : okEnv e = true := hok e (List.mem_cons_self e rest)
      have hrest : ∀ m ∈ rest, okEnv m = true :=
        fun m hm => hok m (List.mem_cons_of_mem e hm)
      have step : runMainGo f (e :: rest) =
          runMainGo (some (Data.appendRow f (okRow e))) rest := by
        show (match run_one e with
          | Except.error _ => (f, true)
          | Except.ok r => runMainGo (some (Data.appendRow f r)) rest) = _
        rw [run_one_okEnv e he]
      obtain ⟨h1, h2⟩ := ih (some (Data.appendRow f (okRow e))) hrest
      rw [step, h1, Data.rowsOf_appendRow, List.map_cons, List.append_assoc,
        List.singleton_append]
      exact ⟨rfl, h2⟩

/-- Whatever dataset file exists when run_mitigation starts, the outcome
is the same: the pre-existing file is deleted before the first trial. -/
theorem runMain_ignores_initial (i1 i2 : Option Data.SinkFile) (trials : List Env) :
    runMain i1 trials = runMain i2 trials := rfl

end Mit

/-- Claim C1, counterexample: a trial whose sandbox reports pid 0 while
its recorded exit code is 0 (the container exited successfully before
the pid inspection) yields the degraded row with exit_code = 0 — the
claim's "exit_code ≠ 0" does not hold; run_one reports whatever
docker inspect returned. -/
theorem c1_counterexample :
    Wit.c1e.pid ≤ 0 ∧ (Exp.run_one Wit.c1e).exit_code = 0 := by decide

/-- Claim C1, amended: a trial whose sandbox never exposes a usable pid
(pid ≤ 0) yields exactly one degraded row whose accounting fields are all
zero and whose exit status is the code reported by the sandbox
inspection (not necessarily nonzero), in both runners; and the schedule
proceeds — the experiment sink gains exactly one row per scheduled
trial. -/
theorem c1_amended (e : Exp.Env) (m : Mit.Env) (init : Option Data.SinkFile)
    (trials : List Exp.Env) (he : e.pid ≤ 0) (hm : m.pid ≤ 0) :
    Exp.run_one e = Data.degradedRow e.runtime_s e.exitCode ∧
    Mit.run_one m = Except.ok (Data.degradedRow m.runtime_s m.exitCode) ∧
    (Data.rowsOf (Exp.runMain init trials)).length =
      (Data.rowsOf init).length + trials.length := by
  refine ⟨?_, ?_, ?_⟩
  · unfold Exp.run_one
    rw [if_pos he]
  · unfold Mit.run_one
    rw [if_pos hm]
  · rw [Exp.rowsOf_runMain, List.length_append, List.length_map]

/-- Claim C1, witness of the amended theorem at a concrete degraded
trial. -/
theorem c1_witness :
    Exp.run_one Wit.c1e = Data.degradedRow Wit.c1e.runtime_s Wit.c1e.exitCode ∧
    Mit.run_one Wit.c1m = Except.ok (Data.degradedRow Wit.c1m.runtime_s Wit.c1m.exitCode) ∧
    (Data.rowsOf (Exp.runMain Option.none [Wit.c1e])).length =
      (Data.rowsOf Option.none).length + [Wit.c1e].length :=
  c1_amended Wit.c1e Wit.c1m Option.none [Wit.c1e] (by decide) (by decide)

/-- Claim C2, counterexample: under mitigation "low" the persisted size
is NOT one fixed constant across secret levels.  pad_file_to_target
writes nothing when the compressed payload already exceeds the 64 MiB
target, and at the default 128 MiB payload the level-3 compressed length
exceeds it (the source's own comment: high-entropy gzip output is close
to the input size).  With a level-0-like compressed length of 131072
bytes the file ends at 64 MiB, with a level-3-like compressed length of
134500000 bytes it ends at 134500000 bytes. -/
theorem c2_counterexample :
    App.secretOutSize 131072 App.Mitigation.low = 67108864 ∧
    App.secretOutSize 134500000 App.Mitigation.low = 134500000 ∧
    App.secretOutSize 131072 App.Mitigation.low ≠
      App.secretOutSize 134500000 App.Mitigation.low := by decide

/-- Claim C2, amended: the persisted size of /tmp/secret.out equals
max(compressed length, target): under "high" it is the fixed constant
140 MiB for every compressed length up to the target (which covers all
four levels at the default payload), hence independent of the secret
level; under "low" it is max(compressed length, 64 MiB), which is
constant only while the compressed length stays below 64 MiB; with no
mitigation it is the compressed length itself. -/
theorem c2_amended (a b : Nat) (h1 : a ≤ 140 * 1024 * 1024)
    (h2 : b ≤ 140 * 1024 * 1024) :
    App.secretOutSize a App.Mitigation.high = App.secretOutSize b App.Mitigation.high ∧
    App.secretOutSize a App.Mitigation.high = 140 * 1024 * 1024 ∧
    (∀ c : Nat, App.secretOutSize c App.Mitigation.low = max c (64 * 1024 * 1024)) ∧
    (∀ c : Nat, App.secretOutSize c App.Mitigation.none = c) := by
  have hpad : ∀ (c t : Nat), c ≤ t → App.pad_file_to_target c t = t := by
    intro c t h
    unfold App.pad_file_to_target
    split
    next hge => omega
    next => rfl
  have hmax : ∀ (c t : Nat), App.pad_file_to_target c t = max c t := by
    intro c t
    unfold App.pad_file_to_target
    split <;> omega
  have hhigh : ∀ c : Nat, c ≤ 140 * 1024 * 1024 →
      App.secretOutSize c App.Mitigation.high = 140 * 1024 * 1024 := by
    intro c h
    show App.pad_file_to_target c (140 * 1024 * 1024) = 140 * 1024 * 1024
    exact hpad c _ h
  refine ⟨?_, hhigh a h1, fun c => hmax c _, fun c => rfl⟩
  rw [hhigh a h1, hhigh b h2]

/-- Claim C2, witness of the amended theorem at two concrete compressed
lengths below the "high" target. -/
theorem c2_witness :
    App.secretOutSize 100 App.Mitigation.high = App.secretOutSize 200 App.Mitigation.high ∧
    App.secretOutSize 100 App.Mitigation.high = 140 * 1024 * 1024 ∧
    (∀ c : Nat, App.secretOutSize c App.Mitigation.low = max c (64 * 1024 * 1024)) ∧
    (∀ c : Nat, App.secretOutSize c App.Mitigation.none = c) :=
  c2_amended 100 200 (by decide) (by decide)

/-- Claim C3, counterexample: in the mitigation runner there is no
fallback to the per-process pseudo-files.  In a world where the cgroup
probe fails while the process's telemetry is readable (the analogous
experiment-runner trial, which does fall back, reports 2 MiB peak
memory), run_mitigation.run_one returns the all-zero degraded row. -/
theorem c3_counterexample :
    Mit.run_one Wit.c3mit = Except.ok (Data.degradedRow 1 7) ∧
    (Exp.run_one Wit.c3exp).max_mem_mib = 2 := by
  refine ⟨rfl, ?_⟩
  show ((2097152 : ℤ) : ℚ) / 1048576 = 2
  norm_num

/-- Claim C3, amended: in the experiment runner the accounting source is
selected once per trial — the cgroup source is used iff the cgroup path
was found and both the cpu.stat and memory.current files exist, and once
selected the other source's reads are never consulted (replacing them
changes nothing).  In the mitigation runner there is no per-process
fallback: when no usable cgroup appears within the probe timeout the
trial is recorded as a degraded all-zero row instead. -/
theorem c3_amended (e f : Exp.Env) (v w : Option Exp.TelemetrySample) (m : Mit.Env)
    (he : Exp.useCg e = true) (hf : Exp.useCg f = false)
    (hm1 : 0 < m.pid) (hm2 : m.cgWaitOk = false) :
    Exp.useCg e = (e.cgFound && (e.memCurrentExists && e.cpuStatExists)) ∧
    Exp.run_one (Exp.mapProc e v) = Exp.run_one e ∧
    Exp.run_one (Exp.mapCg f w) = Exp.run_one f ∧
    Mit.run_one m = Except.ok (Data.degradedRow m.runtime_s m.exitCode) := by
  refine ⟨rfl, Exp.run_one_mapProc e v he, Exp.run_one_mapCg f w hf, ?_⟩
  unfold Mit.run_one
  rw [if_neg (by omega), hm2]
  rfl

/-- Claim C3, witness of the amended theorem at concrete trials using
each source and a concrete degraded mitigation trial. -/
theorem c3_witness :
    Exp.useCg Wit.c3e =
      (Wit.c3e.cgFound && (Wit.c3e.memCurrentExists && Wit.c3e.cpuStatExists)) ∧
    Exp.run_one (Exp.mapProc Wit.c3e Option.none) = Exp.run_one Wit.c3e ∧
    Exp.run_one (Exp.mapCg Wit.c3exp Option.none) = Exp.run_one Wit.c3exp ∧
    Mit.run_one Wit.c3mit =
      Except.ok (Data.degradedRow Wit.c3mit.runtime_s Wit.c3mit.exitCode) :=
  c3_amended Wit.c3e Wit.c3exp Option.none Option.none Wit.c3mit
    (by decide) (by decide) (by decide) (by decide)

/-- Claim C4, counterexample: the last-known successful poll sample does
NOT stand as the final cpu/io reading in the experiment runner.  In a
world whose baseline has cpu 0, whose first poll read succeeds with
cpu 5 and whose source then vanishes (poll and drain reads fail),
run_one reports avg_cpu_percent = 0 — the baseline stood, not the
last-known sample; the same world with a successful draining read
reports 500.  Moreover in the mitigation runner a baseline read failure
propagates out of run_one. -/
theorem c4_counterexample :
    (Exp.run_one Wit.c4loss).avg_cpu_percent = 0 ∧
    (Exp.run_one Wit.c4drain).avg_cpu_percent = 500 ∧
    Mit.run_one Wit.c4crash = Except.error () := by
  refine ⟨?_, ?_, rfl⟩
  · show (if (1 : ℚ) > 0
        then max 0 (Wit.s0z.cpu_seconds - Wit.s0z.cpu_seconds) / 1 * 100 else 0) = 0
    norm_num [Wit.s0z]
  · show (if (1 : ℚ) > 0
        then max 0 (Wit.s5.cpu_seconds - Wit.s0z.cpu_seconds) / 1 * 100 else 0) = 500
    norm_num [Wit.s5, Wit.s0z]

/-- Claim C4, amended: on Unavailable the experiment runner stops polling
and falls back, for the cpu/io fields, to the baseline sample (zero
deltas) whenever the draining read cannot be taken — successful poll
samples are retained only in the memory peak; and in the mitigation
runner a read failure escapes run_one exactly when the cgroup probe
succeeded but the unguarded baseline read failed — in every other case
the trial produces exactly one result. -/
theorem c4_amended (e : Exp.Env) (s0 : Exp.TelemetrySample) (m : Mit.Env)
    (hp : 0 < e.pid)
    (hb : Exp.baselineSample (Exp.useCg e) (e.baseline.take 10) = some s0)
    (hd : e.drain.procExists = false ∨ Exp.readOf (Exp.useCg e) e.drain = Option.none) :
    ((Exp.run_one e).avg_cpu_percent = 0 ∧ (Exp.run_one e).blk_read_mib = 0 ∧
      (Exp.run_one e).blk_write_mib = 0) ∧
    (Mit.run_one m = Except.error () ↔
      (0 < m.pid ∧ m.cgWaitOk = true ∧ m.s0read = Option.none)) :=
  ⟨Exp.run_one_drainFail e s0 hp hb hd, Mit.run_one_error_iff m⟩

/-- Claim C4, witness of the amended theorem at the concrete
source-vanished trial. -/
theorem c4_witness :
    ((Exp.run_one Wit.c4loss).avg_cpu_percent = 0 ∧
      (Exp.run_one Wit.c4loss).blk_read_mib = 0 ∧
      (Exp.run_one Wit.c4loss).blk_write_mib = 0) ∧
    (Mit.run_one Wit.c4crash = Except.error () ↔
      (0 < Wit.c4crash.pid ∧ Wit.c4crash.cgWaitOk = true ∧
        Wit.c4crash.s0read = Option.none)) :=
  c4_amended Wit.c4loss Wit.s0z Wit.c4crash (by decide) (by decide)
    (Or.inl (by decide))

/-- Claim C5, counterexample: the mitigation orchestrator deletes the
existing dataset file at startup, so a row written by an earlier run is
removed.  Starting from a file holding one row and running one degraded
trial, the resulting file holds only the new row and the old row is
gone. -/
theorem c5_counterexample :
    Data.rowsOf (Mit.runMain Wit.c5old [Wit.c5trial]).1 = [Data.degradedRow 2 1] ∧
    Data.degradedRow 1 5 ∈ Data.rowsOf Wit.c5old ∧
    Data.degradedRow 1 5 ∉ Data.rowsOf (Mit.runMain Wit.c5old [Wit.c5trial]).1 := by
  refine ⟨rfl, ?_, ?_⟩
  · show Data.degradedRow 1 5 ∈ [Data.degradedRow 1 5]
    exact List.mem_singleton_self _
  · intro h
    have h1 : Data.degradedRow 1 5 ∈ [Data.degradedRow 2 1] := h
    have h2 := List.mem_singleton.mp h1
    have h3 : (5 : ℤ) = 1 := congrArg Data.Row.exit_code h2
    exact absurd h3 (by decide)

/-- Claim C5, amended: within one orchestrator run the sink is
append-only — the experiment orchestrator leaves the rows found at
startup as an untouched prefix, appends exactly one row per trial in
order and preserves (resp. writes exactly once, on creation) the header;
the mitigation orchestrator however deletes any pre-existing dataset
file before its first trial, so its outcome is independent of the file
it found. -/
theorem c5_amended (init : Option Data.SinkFile) (trials : List Exp.Env)
    (g : Data.SinkFile) (mtrials : List Mit.Env) (h : init = some g) :
    Data.rowsOf (Exp.runMain init trials) =
      Data.rowsOf init ++ trials.map Exp.run_one ∧
    (∃ g2 : Data.SinkFile,
      Exp.runMain init trials = some g2 ∧ g2.header = g.header) ∧
    (∀ i2 : Option Data.SinkFile,
      Mit.runMain init mtrials = Mit.runMain i2 mtrials) := by
  refine ⟨Exp.rowsOf_runMain trials init, ?_, fun i2 => Mit.runMain_ignores_initial init i2 mtrials⟩
  rw [h]
  exact Exp.runMain_header trials g

/-- Claim C5, witness of the amended theorem at a concrete initial file
and one-trial schedules. -/
theorem c5_witness :
    Data.rowsOf (Exp.runMain Wit.c5old [Wit.c1e]) =
      Data.rowsOf Wit.c5old ++ [Wit.c1e].map Exp.run_one ∧
    (∃ g2 : Data.SinkFile,
      Exp.runMain Wit.c5old [Wit.c1e] = some g2 ∧
        g2.header = (Data.SinkFile.mk true [Data.degradedRow 1 5]).header) ∧
    (∀ i2 : Option Data.SinkFile,
      Mit.runMain Wit.c5old [Wit.c5trial] = Mit.runMain i2 [Wit.c5trial]) :=
  c5_amended Wit.c5old [Wit.c1e] (Data.SinkFile.mk true [Data.degradedRow 1 5])
    [Wit.c5trial] rfl

/-- Claim C6: in every trial result, of either runner, the cpu and io
deltas are clamped at zero, so avg_cpu_percent, blk_read_mib and
blk_write_mib are all nonnegative. -/
theorem c6_deltas_nonneg (e : Exp.Env) (m : Mit.Env) (r : Data.Row)
    (h : Mit.run_one m = Except.ok r) :
    (0 ≤ (Exp.run_one e).avg_cpu_percent ∧ 0 ≤ (Exp.run_one e).blk_read_mib ∧
      0 ≤ (Exp.run_one e).blk_write_mib) ∧
    (0 ≤ r.avg_cpu_percent ∧ 0 ≤ r.blk_read_mib ∧ 0 ≤ r.blk_write_mib) :=
  ⟨Exp.run_one_nonneg e, Mit.run_one_ok_nonneg m r h⟩

/-- Claim C6, witness at a concrete trial whose draining read reports
lower counters than the baseline (exercising the clamps) and a concrete
degraded mitigation trial. -/
theorem c6_witness :
    (0 ≤ (Exp.run_one Wit.c6e).avg_cpu_percent ∧
      0 ≤ (Exp.run_one Wit.c6e).blk_read_mib ∧
      0 ≤ (Exp.run_one Wit.c6e).blk_write_mib) ∧
    (0 ≤ (Data.degradedRow 1 3).avg_cpu_percent ∧
      0 ≤ (Data.degradedRow 1 3).blk_read_mib ∧
      0 ≤ (Data.degradedRow 1 3).blk_write_mib) :=
  c6_deltas_nonneg Wit.c6e Wit.c6m (Data.degradedRow 1 3) rfl

/-- Claim C7: schedule construction is deterministic — the shuffled order
is a function of the cells, the repetition count and the seed's draw
stream alone — and the shuffled schedule is a permutation of the full
cross-product of cells × repetitions, in which each cell/repetition pair
occurs exactly once (the cross-product is duplicate-free, and the
shuffle preserves that). -/
theorem c7_build_schedule (js js2 : Nat → Nat) (h : ∀ i, js i = js2 i) :
    Sched.pyShuffle js Sched.expSchedule = Sched.pyShuffle js2 Sched.expSchedule ∧
    List.Perm (Sched.pyShuffle js Sched.expSchedule) Sched.expSchedule ∧
    List.Perm (Sched.pyShuffle js Sched.mitSchedule) Sched.mitSchedule ∧
    Sched.expSchedule.Nodup ∧ Sched.mitSchedule.Nodup ∧
    (Sched.pyShuffle js Sched.expSchedule).Nodup ∧
    (Sched.pyShuffle js Sched.mitSchedule).Nodup := by
  have hj : js = js2 := funext h
  subst hj
  refine ⟨rfl, Sched.pyShuffle_perm js _, Sched.pyShuffle_perm js _,
    Sched.expSchedule_nodup, Sched.mitSchedule_nodup, ?_, ?_⟩
  · exact (Sched.pyShuffle_perm js _).symm.nodup Sched.expSchedule_nodup
  · exact (Sched.pyShuffle_perm js _).symm.nodup Sched.mitSchedule_nodup

/-- Claim C7, witness at a concrete draw stream. -/
theorem c7_witness :
    Sched.pyShuffle (fun _ => 0) Sched.expSchedule =
      Sched.pyShuffle (fun _ => 0) Sched.expSchedule ∧
    List.Perm (Sched.pyShuffle (fun _ => 0) Sched.expSchedule) Sched.expSchedule ∧
    List.Perm (Sched.pyShuffle (fun _ => 0) Sched.mitSchedule) Sched.mitSchedule ∧
    Sched.expSchedule.Nodup ∧ Sched.mitSchedule.Nodup ∧
    (Sched.pyShuffle (fun _ => 0) Sched.expSchedule).Nodup ∧
    (Sched.pyShuffle (fun _ => 0) Sched.mitSchedule).Nodup :=
  c7_build_schedule (fun _ => 0) (fun _ => 0) (fun _ => rfl)

/-- Claim C8: invoking the workload engine with workload=secret and a
level outside {0,1,2,3} exits with code 1 without performing
secret_work, and the failure is confined to that invocation — the
mitigation orchestrator still appends exactly one row per scheduled
trial and never stops early on nonzero container exit codes. -/
theorem c8_invalid_secret_level (N : Int) (h0 : N ≠ 0) (h1 : N ≠ 1)
    (h2 : N ≠ 2) (h3 : N ≠ 3) (init : Option Data.SinkFile)
    (mtrials : List Mit.Env) (hok : ∀ m ∈ mtrials, Mit.okEnv m = true) :
    App.appMain App.Workload.secret N = ⟨1, false⟩ ∧
    (Data.rowsOf (Mit.runMain init mtrials).1).length = mtrials.length ∧
    (Mit.runMain init mtrials).2 = false := by
  refine ⟨?_, ?_, ?_⟩
  · unfold App.appMain
    rw [if_neg]
    rintro (h | h | h | h) <;> contradiction
  · obtain ⟨hr, hcont⟩ := Mit.runMainGo_rows mtrials Option.none hok
    show (Data.rowsOf (Mit.runMainGo Option.none mtrials).1).length = mtrials.length
    rw [hr]
    simp [Data.rowsOf]
  · obtain ⟨hr, hcont⟩ := Mit.runMainGo_rows mtrials Option.none hok
    exact hcont

/-- Claim C8, witness at level 7 and a one-trial schedule whose container
exits nonzero. -/
theorem c8_witness :
    App.appMain App.Workload.secret 7 = ⟨1, false⟩ ∧
    (Data.rowsOf (Mit.runMain Option.none [Wit.c8m]).1).length = [Wit.c8m].length ∧
    (Mit.runMain Option.none [Wit.c8m]).2 = false :=
  c8_invalid_secret_level 7 (by decide) (by decide) (by decide) (by decide)
    Option.none [Wit.c8m] (by decide)

/-- Claim C10: make_entropy_buffer sends every secret level other than
0, 1, 2 — including negative levels and levels above 3 — to the urandom
branch, i.e. it behaves exactly like level 3 instead of raising; the
{0,1,2,3} domain check lives only in the CLI entry point, which exits 1
for such levels. -/
theorem c10_out_of_range_level (urandom : Nat → List Nat) (N : Int) (s : Nat)
    (h0 : N ≠ 0) (h1 : N ≠ 1) (h2 : N ≠ 2) :
    App.make_entropy_buffer urandom N s = urandom (s * 1024 * 1024) ∧
    App.make_entropy_buffer urandom N s = App.make_entropy_buffer urandom 3 s ∧
    (N ≠ 3 → App.appMain App.Workload.secret N = ⟨1, false⟩) := by
  refine ⟨?_, ?_, ?_⟩
  · unfold App.make_entropy_buffer
    rw [if_neg h0, if_neg h1, if_neg h2]
  · unfold App.make_entropy_buffer
    rw [if_neg h0, if_neg h1, if_neg h2,
      if_neg (by decide : ¬ (3 : ℤ) = 0), if_neg (by decide : ¬ (3 : ℤ) = 1),
      if_neg (by decide : ¬ (3 : ℤ) = 2)]
  · intro h3
    unfold App.appMain
    rw [if_neg]
    rintro (h | h | h | h) <;> contradiction

/-- Claim C10, witness at the negative level -5. -/
theorem c10_witness :
    App.make_entropy_buffer Wit.u7 (-5) 1 = Wit.u7 (1 * 1024 * 1024) ∧
    App.make_entropy_buffer Wit.u7 (-5) 1 = App.make_entropy_buffer Wit.u7 3 1 ∧
    ((-5 : Int) ≠ 3 → App.appMain App.Workload.secret (-5) = ⟨1, false⟩) :=
  c10_out_of_range_level Wit.u7 (-5) 1 (by decide) (by decide) (by decide)
